import Mathlib

/-!
Verification development for the openIMIS claim-batch module
(`claim_batch/services.py`).

The Python module is shallowly embedded here:
* dates are a `Date` structure (year/month/day over `Int`); Python
  `datetime.date` construction, which validates its fields and raises
  `ValueError` on an invalid month/day/year, is `mkDate` returning
  `Except String Date`;
* day subtraction between dates (`(a - b).days`) is the difference of the
  civil-calendar day numbers computed by `toDays`;
* Django querysets over in-memory tables are `List` filters;
* monetary amounts (`Decimal`/float in Python) are modelled as exact
  rationals `ℚ`;
* fallible Python code (exceptions) returns `Except String _`.
-/

/-- Leap-year test of the proleptic Gregorian calendar, as used by
Python `datetime`. -/
def isLeap (y : Int) : Bool :=
  y % 4 = 0 && (y % 100 ≠ 0 || y % 400 = 0)

/-- Number of days of month `m` of year `y` (Python
`calendar.monthrange(y, m).1`); only consulted for `1 ≤ m ≤ 12`. -/
def daysInMonth (y m : Int) : Int :=
  if m = 2 then (if isLeap y then 29 else 28)
  else if m = 4 ∨ m = 6 ∨ m = 9 ∨ m = 11 then 30
  else 31

/-- A calendar date, mirroring Python `datetime.date` (year, month, day). -/
structure Date where
  year : Int
  month : Int
  day : Int
deriving DecidableEq, Repr

/-- Civil-calendar day number of a date (days since 1970-01-01); the
standard days-from-civil computation, written with Euclidean `Int`
division (which floors for the positive divisors used here). Day
differences between Python dates are differences of `toDays` values. -/
def toDays (dt : Date) : Int :=
  let y : Int := if dt.month ≤ 2 then dt.year - 1 else dt.year
  let era : Int := y / 400
  let yoe : Int := y - era * 400
  let mp : Int := (dt.month + 9) % 12
  let doy : Int := (153 * mp + 2) / 5 + dt.day - 1
  let doe : Int := yoe * 365 + yoe / 4 - yoe / 100 + doy
  era * 146097 + doe - 719468

/-- Python `datetime.date(y, m, d)`: validates year, month and day and
raises `ValueError` (here: `Except.error`) when a field is out of range. -/
def mkDate (y m d : Int) : Except String Date :=
  if y < 1 ∨ 9999 < y then .error "year is out of range"
  else if m < 1 ∨ 12 < m then .error "month must be in 1..12"
  else if d < 1 ∨ daysInMonth y m < d then .error "day is out of range for month"
  else .ok ⟨y, m, d⟩

/-- `claim_batch.services.get_start_date`: maps the run end date and a
payment plan periodicity to the window start date (`.ok (some _)`), to
"plan not firing this period" (`.ok none`), or to a propagated
`datetime.date` `ValueError` (`.error _`). Mirrors the Python `if`/`elif`
chain literally. -/
def get_start_date (end_date : Date) (periodicity : Int) : Except String (Option Date) :=
  let year := end_date.year
  let month := end_date.month
  if periodicity = 12 then
    if month = 12 then (mkDate year 1 1).map some else .ok none
  else if periodicity = 6 then
    if month % 6 = 0 then (mkDate year (month - 5) 1).map some else .ok none
  else if periodicity = 4 then
    if month % 4 = 0 then (mkDate year (month - 4) 1).map some else .ok none
  else if periodicity = 3 then
    if month % 3 = 0 then (mkDate year (month - 2) 1).map some else .ok none
  else if periodicity = 2 then
    if month % 2 = 0 then (mkDate year (month - 1) 1).map some else .ok none
  else if periodicity = 1 then
    (mkDate year month 1).map some
  else .ok none

lemma daysInMonth_pos (y m : Int) : 1 ≤ daysInMonth y m := by
  unfold daysInMonth
  split
  · split <;> omega
  · split <;> omega

lemma mkDate_ok (y m : Int) (hy1 : 1 ≤ y) (hy2 : y ≤ 9999)
    (hm1 : 1 ≤ m) (hm2 : m ≤ 12) : mkDate y m 1 = .ok ⟨y, m, 1⟩ := by
  have hd := daysInMonth_pos y m
  unfold mkDate
  rw [if_neg (by omega), if_neg (by omega), if_neg (by omega)]

/-- C3 counterexample: the spec table says periodicity 4 fires whenever
`end_date.month % 4 == 0` with start the first day of month `month - 4`;
at an April end date (month 4, which satisfies `4 % 4 == 0`) the code
instead computes `datetime.date(year, 0, 1)`, which raises a `ValueError`
rather than returning any start date (and rather than returning none). -/
theorem claim_C3_counterexample :
    (Date.mk 2021 4 30).month % 4 = 0 ∧
      get_start_date ⟨2021, 4, 30⟩ 4 = .error "month must be in 1..12" := by
  constructor
  · decide
  · rfl

/-- C3 (amended): `get_start_date` realises the section 4.1 table at every
valid end date for periodicities 1, 2, 3, 6 and 12 and for every other
periodicity value (none), and for periodicity 4 it realises the table only
at months 8 and 12: at month 4 (also a firing month per the table) the
`datetime.date(year, 0, 1)` construction fails with a month-range
`ValueError` instead of producing a start date. -/
theorem claim_C3_period_resolver (ed : Date)
    (hy1 : 1 ≤ ed.year) (hy2 : ed.year ≤ 9999)
    (hm1 : 1 ≤ ed.month) (hm2 : ed.month ≤ 12) :
    (get_start_date ed 1 = .ok (some ⟨ed.year, ed.month, 1⟩))
    ∧ (get_start_date ed 2 =
        if ed.month % 2 = 0 then .ok (some ⟨ed.year, ed.month - 1, 1⟩) else .ok none)
    ∧ (get_start_date ed 3 =
        if ed.month % 3 = 0 then .ok (some ⟨ed.year, ed.month - 2, 1⟩) else .ok none)
    ∧ (get_start_date ed 4 =
        if ed.month = 4 then .error "month must be in 1..12"
        else if ed.month % 4 = 0 then .ok (some ⟨ed.year, ed.month - 4, 1⟩) else .ok none)
    ∧ (get_start_date ed 6 =
        if ed.month % 6 = 0 then .ok (some ⟨ed.year, ed.month - 5, 1⟩) else .ok none)
    ∧ (get_start_date ed 12 =
        if ed.month = 12 then .ok (some ⟨ed.year, 1, 1⟩) else .ok none)
    ∧ (∀ p : Int, p ≠ 1 → p ≠ 2 → p ≠ 3 → p ≠ 4 → p ≠ 6 → p ≠ 12 →
        get_start_date ed p = .ok none) := by
  refine ⟨?_, ?_, ?_, ?_, ?_, ?_, ?_⟩
  · show get_start_date ed 1 = _
    unfold get_start_date
    rw [if_neg (by omega), if_neg (by omega), if_neg (by omega),
      if_neg (by omega), if_neg (by omega), if_pos rfl,
      mkDate_ok _ _ hy1 hy2 hm1 hm2]
    rfl
  · show get_start_date ed 2 = _
    unfold get_start_date
    rw [if_neg (by omega), if_neg (by omega), if_neg (by omega),
      if_neg (by omega), if_pos rfl]
    by_cases h : ed.month % 2 = 0
    · rw [if_pos h, if_pos h, mkDate_ok _ _ hy1 hy2 (by omega) (by omega)]
      rfl
    · rw [if_neg h, if_neg h]
  · show get_start_date ed 3 = _
    unfold get_start_date
    rw [if_neg (by omega), if_neg (by omega), if_neg (by omega), if_pos rfl]
    by_cases h : ed.month % 3 = 0
    · rw [if_pos h, if_pos h, mkDate_ok _ _ hy1 hy2 (by omega) (by omega)]
      rfl
    · rw [if_neg h, if_neg h]
  · show get_start_date ed 4 = _
    unfold get_start_date
    rw [if_neg (by omega), if_neg (by omega), if_pos rfl]
    by_cases h4 : ed.month = 4
    · rw [if_pos (by omega), if_pos h4, h4]
      unfold mkDate
      rw [if_neg (by omega), if_pos (by norm_num)]
      rfl
    · rw [if_neg h4]
      by_cases h : ed.month % 4 = 0
      · rw [if_pos h, if_pos h, mkDate_ok _ _ hy1 hy2 (by omega) (by omega)]
        rfl
      · rw [if_neg h, if_neg h]
  · show get_start_date ed 6 = _
    unfold get_start_date
    rw [if_neg (by omega), if_pos rfl]
    by_cases h : ed.month % 6 = 0
    · rw [if_pos h, if_pos h, mkDate_ok _ _ hy1 hy2 (by omega) (by omega)]
      rfl
    · rw [if_neg h, if_neg h]
  · show get_start_date ed 12 = _
    unfold get_start_date
    rw [if_pos rfl]
    by_cases h : ed.month = 12
    · rw [if_pos h, if_pos h, mkDate_ok _ _ hy1 hy2 (by omega) (by omega)]
      rfl
    · rw [if_neg h, if_neg h]
  · intro p h1 h2 h3 h4 h6 h12
    unfold get_start_date
    rw [if_neg (by omega), if_neg (by omega), if_neg (by omega),
      if_neg (by omega), if_neg (by omega), if_neg (by omega)]

/-- Witness for C3 (amended) at the concrete end date 2020-06-30:
a semester plan (periodicity 6) fires with start 2020-01-01. -/
theorem claim_C3_period_resolver_witness :
    get_start_date ⟨2020, 6, 30⟩ 6 = .ok (some ⟨2020, 1, 1⟩) := by
  have h := (claim_C3_period_resolver ⟨2020, 6, 30⟩ (by decide) (by decide)
    (by decide) (by decide)).2.2.2.2.1
  simpa using h

/-- A policy as seen by `get_allocated_premium` and
`get_contribution_queryset`: an effective/expiry date range and the
product it belongs to. -/
structure PolicyRec where
  effective_date : Date
  expiry_date : Date
  product : Nat
deriving DecidableEq, Repr

/-- A `Premium` (contribution) row: an amount tied to a policy; a null
`validity_to` marks the row as current. -/
structure Premium where
  amount : ℚ
  policy : PolicyRec
  validity_to : Option Int
deriving DecidableEq, Repr

/-- Python `max(a, b)` on dates (keeps the first argument on ties). -/
def maxDate (a b : Date) : Date := if toDays a < toDays b then b else a

/-- Python `min(a, b)` on dates (keeps the first argument on ties). -/
def minDate (a b : Date) : Date := if toDays b < toDays a then b else a

/-- The loop body of `claim_batch.services.get_allocated_premium`,
accumulating into `acc`; a zero `policy_duration` denominator raises
Python's division-by-zero error (`Except.error`), while any non-zero
(possibly negative) denominator divides normally. -/
def allocatedPremiumLoop (start_date end_date : Date) :
    List Premium → ℚ → Except String ℚ
  | [], acc => .ok acc
  | premium :: rest, acc =>
    let allocation_start := maxDate premium.policy.effective_date start_date
    let allocation_stop := minDate end_date premium.policy.expiry_date
    let allocation_diff : Int := toDays allocation_stop - toDays allocation_start + 1
    let policy_duration : Int :=
      toDays premium.policy.expiry_date - toDays premium.policy.effective_date + 1
    if policy_duration = 0 then .error "division by zero"
    else allocatedPremiumLoop start_date end_date rest
      (acc + premium.amount * (allocation_diff : ℚ) / (policy_duration : ℚ))

/-- `claim_batch.services.get_allocated_premium`: sums, over the given
premiums, the premium amount prorated by the overlap of the run window
with the policy coverage range. -/
def get_allocated_premium (premiums : List Premium) (start_date end_date : Date) :
    Except String ℚ :=
  allocatedPremiumLoop start_date end_date premiums 0

/-- The claim's overlap length: the inclusive whole-day length of the
intersection of the run window and the policy range, clamped on both
sides. -/
def overlap_days (premium : Premium) (start_date end_date : Date) : Int :=
  toDays (minDate end_date premium.policy.expiry_date)
    - toDays (maxDate premium.policy.effective_date start_date) + 1

/-- The claim's denominator: the inclusive whole-day length of the policy
coverage range. -/
def policy_total_days (premium : Premium) : Int :=
  toDays premium.policy.expiry_date - toDays premium.policy.effective_date + 1

lemma allocatedPremiumLoop_spec (start_date end_date : Date) :
    ∀ (premiums : List Premium) (acc : ℚ),
      (∀ p ∈ premiums, policy_total_days p ≠ 0) →
      allocatedPremiumLoop start_date end_date premiums acc =
        .ok (acc + (premiums.map (fun p =>
          p.amount * (overlap_days p start_date end_date : ℚ)
            / (policy_total_days p : ℚ))).sum) := by
  intro premiums
  induction premiums with
  | nil => intro acc _; simp [allocatedPremiumLoop]
  | cons p rest ih =>
    intro acc h
    have hp : policy_total_days p ≠ 0 := h p (by simp)
    unfold allocatedPremiumLoop
    rw [if_neg (by simpa [policy_total_days] using hp)]
    rw [ih _ (fun q hq => h q (by simp [hq]))]
    simp only [List.map_cons, List.sum_cons, overlap_days, policy_total_days]
    congr 1
    ring

/-- C4: for premiums whose policy ranges are well formed (expiry not
before effective, so the denominator is non-zero), `get_allocated_premium`
returns exactly the sum over the premiums of
`amount * overlap_days / policy_total_days`, where `overlap_days` is the
inclusive day length of the clamped intersection of the window and the
policy range and `policy_total_days` the inclusive day length of the
policy range; in particular it returns 0 for an empty premium list. -/
theorem claim_C4_allocated_premium (premiums : List Premium)
    (start_date end_date : Date)
    (h : ∀ p ∈ premiums, toDays p.policy.effective_date ≤ toDays p.policy.expiry_date) :
    get_allocated_premium premiums start_date end_date =
      .ok ((premiums.map (fun p =>
        p.amount * (overlap_days p start_date end_date : ℚ)
          / (policy_total_days p : ℚ))).sum) := by
  unfold get_allocated_premium
  rw [allocatedPremiumLoop_spec start_date end_date premiums 0
    (fun p hp => by have := h p hp; unfold policy_total_days; omega)]
  rw [zero_add]

/-- Witness for C4: the empty premium list allocates 0. -/
theorem claim_C4_allocated_premium_witness :
    get_allocated_premium [] ⟨2020, 1, 1⟩ ⟨2020, 1, 31⟩ = .ok 0 := by
  have h := claim_C4_allocated_premium [] ⟨2020, 1, 1⟩ ⟨2020, 1, 31⟩ (by simp)
  simpa using h

/-- C6 counterexample: a premium of amount 100 on a policy whose expiry
(2021-01-08) precedes its effective date (2021-01-10) by two days gives a
negative denominator (-1), and `get_allocated_premium` returns the value
100 instead of failing with a DataError. -/
theorem claim_C6_counterexample :
    toDays (Date.mk 2021 1 8) < toDays (Date.mk 2021 1 10) ∧
      get_allocated_premium [⟨100, ⟨⟨2021, 1, 10⟩, ⟨2021, 1, 8⟩, 0⟩, none⟩]
        ⟨2021, 1, 1⟩ ⟨2021, 1, 31⟩ = .ok 100 := by
  constructor
  · decide
  · unfold get_allocated_premium allocatedPremiumLoop
    norm_num [toDays, maxDate, minDate]
    rfl

/-- C6 (amended): the allocated-contribution computation fails with a
division-by-zero error exactly when a policy's inclusive duration is zero
(expiry exactly one day before effective); when the expiry precedes the
effective date by two or more days the denominator is strictly negative
and the computation returns a value rather than failing. -/
theorem claim_C6_inverted_policy (p q : Premium) (rest : List Premium)
    (s e : Date)
    (hz : policy_total_days p = 0)
    (hneg : policy_total_days q < 0) :
    get_allocated_premium (p :: rest) s e = .error "division by zero"
    ∧ ∃ v : ℚ, get_allocated_premium [q] s e = .ok v := by
  constructor
  · unfold get_allocated_premium allocatedPremiumLoop
    rw [if_pos (by simpa [policy_total_days] using hz)]
  · refine ⟨q.amount * (overlap_days q s e : ℚ) / (policy_total_days q : ℚ), ?_⟩
    unfold get_allocated_premium allocatedPremiumLoop
    rw [if_neg (by simpa [policy_total_days] using hneg.ne)]
    unfold allocatedPremiumLoop
    rw [zero_add]
    simp [overlap_days, policy_total_days]

/-- Witness for C6 (amended): a zero-duration policy (effective 2021-01-10,
expiry 2021-01-09) makes the computation fail, while a negative-duration
policy (expiry 2021-01-08) yields a value. -/
theorem claim_C6_inverted_policy_witness :
    get_allocated_premium
        [⟨100, ⟨⟨2021, 1, 10⟩, ⟨2021, 1, 9⟩, 0⟩, none⟩] ⟨2021, 1, 1⟩ ⟨2021, 1, 31⟩
      = .error "division by zero"
    ∧ ∃ v : ℚ, get_allocated_premium
        [⟨100, ⟨⟨2021, 1, 10⟩, ⟨2021, 1, 8⟩, 0⟩, none⟩] ⟨2021, 1, 1⟩ ⟨2021, 1, 31⟩
      = .ok v :=
  claim_C6_inverted_policy
    ⟨100, ⟨⟨2021, 1, 10⟩, ⟨2021, 1, 9⟩, 0⟩, none⟩
    ⟨100, ⟨⟨2021, 1, 10⟩, ⟨2021, 1, 8⟩, 0⟩, none⟩
    [] ⟨2021, 1, 1⟩ ⟨2021, 1, 31⟩ (by decide) (by decide)

/-- `claim.models.Claim.STATUS_VALUATED`. -/
def STATUS_VALUATED : Int := 16

/-- `claim.models.Claim.STATUS_PROCESSED`. -/
def STATUS_PROCESSED : Int := 8

/-- A `ClaimItem` row as consulted by `update_claim_valuated`: the owning
claim, the valuated price (nullable) and the legacy marker (a non-null
`legacy_id` marks a historical row). -/
structure ClaimItemRec where
  claim_id : Nat
  price_valuated : Option ℚ
  legacy_id : Option Nat
deriving DecidableEq, Repr

/-- A `ClaimService` row, with the same fields as `ClaimItemRec`. -/
structure ClaimServiceRec where
  claim_id : Nat
  price_valuated : Option ℚ
  legacy_id : Option Nat
deriving DecidableEq, Repr

/-- A `Claim` row with the fields `update_claim_valuated` writes. -/
structure ClaimRec where
  id : Nat
  status : Int
  batch_run_id : Option Nat
  remunerated : Option ℚ
deriving DecidableEq, Repr

/-- SQL `SUM` over a nullable column: nulls are skipped, and the sum of no
non-null values (in particular of an empty row set) is `NULL`. -/
def sqlSum (xs : List (Option ℚ)) : Option ℚ :=
  let vals := xs.filterMap id
  if vals.isEmpty then none else some vals.sum

/-- The current (non-legacy) `ClaimItem` rows of one claim: the subquery
filters `claim = OuterRef(pk)` and `legacy_id__isnull=True`. -/
def claimItemsOf (items : List ClaimItemRec) (claim_id : Nat) : List ClaimItemRec :=
  items.filter (fun it => decide (it.claim_id = claim_id ∧ it.legacy_id = none))

/-- The current (non-legacy) `ClaimService` rows of one claim. -/
def claimServicesOf (services : List ClaimServiceRec) (claim_id : Nat) :
    List ClaimServiceRec :=
  services.filter (fun sv => decide (sv.claim_id = claim_id ∧ sv.legacy_id = none))

/-- `claim_batch.services.update_claim_valuated`: a bulk `UPDATE` on the
claims selected by the `claims` queryset (here the `selected` predicate
over claim ids applied to the claims table): each selected claim gets
status `VALUATED`, the batch run id, and
`remunerated = Coalesce(item sum, 0) + Coalesce(service sum, 0) +
Coalesce(claim-level value, 0)` — in the source the variable named
`service_subquery` sums the `ClaimItem` rows and `item_subquery` sums the
`ClaimService` rows, each over the claim's non-legacy rows. Unselected
claims are untouched. -/
def update_claim_valuated (items : List ClaimItemRec) (services : List ClaimServiceRec)
    (claim_based_value : Nat → Option ℚ) (batch_run_id : Nat)
    (selected : Nat → Bool) (claims : List ClaimRec) : List ClaimRec :=
  claims.map fun c =>
    if selected c.id then
      { c with
        status := STATUS_VALUATED,
        batch_run_id := some batch_run_id,
        remunerated := some
          ((sqlSum ((claimItemsOf items c.id).map (·.price_valuated))).getD 0
            + (sqlSum ((claimServicesOf services c.id).map (·.price_valuated))).getD 0
            + (claim_based_value c.id).getD 0) }
    else c

/-- Every current item and every current service of the claim carries a
valuated price. -/
def all_details_valuated (items : List ClaimItemRec) (services : List ClaimServiceRec)
    (claim_id : Nat) : Bool :=
  (claimItemsOf items claim_id).all (fun it => it.price_valuated.isSome)
    && (claimServicesOf services claim_id).all (fun sv => sv.price_valuated.isSome)

lemma sqlSum_getD (xs : List (Option ℚ)) :
    (sqlSum xs).getD 0 = (xs.filterMap id).sum := by
  unfold sqlSum
  by_cases h : (xs.filterMap id).isEmpty
  · rw [if_pos h]
    rw [List.isEmpty_iff] at h
    simp [h]
  · rw [if_neg h]
    rfl

/-- C1: applying `update_claim_valuated` with a batch run to the claims of
a run whose every current item and service carries a valuated price
(`selected` below): every such claim is transitioned to status VALUATED,
gets the batch-run id attached, and gets
`remunerated = sum of its items' valuated prices + sum of its services'
valuated prices + the claim-level adjustment`, each missing/null subtotal
counting as zero; a claim with an unvalued current item or service is not
selected and comes out of the update unchanged (not transitioned). -/
theorem claim_C1_finalization (items : List ClaimItemRec)
    (services : List ClaimServiceRec) (claim_based_value : Nat → Option ℚ)
    (batch_run_id : Nat) (touched : Nat → Bool) (claims : List ClaimRec)
    (c : ClaimRec) (hc : c ∈ claims) :
    ((touched c.id && all_details_valuated items services c.id) = true →
      { c with
        status := STATUS_VALUATED,
        batch_run_id := some batch_run_id,
        remunerated := some
          (((claimItemsOf items c.id).filterMap (·.price_valuated)).sum
            + ((claimServicesOf services c.id).filterMap (·.price_valuated)).sum
            + (claim_based_value c.id).getD 0) }
        ∈ update_claim_valuated items services claim_based_value batch_run_id
            (fun cid => touched cid && all_details_valuated items services cid) claims)
    ∧ (all_details_valuated items services c.id = false →
      c ∈ update_claim_valuated items services claim_based_value batch_run_id
            (fun cid => touched cid && all_details_valuated items services cid) claims) := by
  have e1 : (sqlSum ((claimItemsOf items c.id).map (·.price_valuated))).getD 0
      = ((claimItemsOf items c.id).filterMap (·.price_valuated)).sum := by
    rw [sqlSum_getD, List.filterMap_map]
    rfl
  have e2 : (sqlSum ((claimServicesOf services c.id).map (·.price_valuated))).getD 0
      = ((claimServicesOf services c.id).filterMap (·.price_valuated)).sum := by
    rw [sqlSum_getD, List.filterMap_map]
    rfl
  constructor
  · intro hsel
    unfold update_claim_valuated
    refine List.mem_map.mpr ⟨c, hc, ?_⟩
    simp only [hsel, if_true, e1, e2]
  · intro hbad
    unfold update_claim_valuated
    refine List.mem_map.mpr ⟨c, hc, ?_⟩
    simp [hbad]

/-- Witness for C1: a claim (id 1, status PROCESSED) with one item valued
300 and one service valued 200 and no adjustment is transitioned by the
finalization to status VALUATED with batch run 7 and remunerated 500. -/
theorem claim_C1_finalization_witness :
    ({ id := 1, status := STATUS_VALUATED, batch_run_id := some 7,
       remunerated := some 500 } : ClaimRec)
      ∈ update_claim_valuated [⟨1, some 300, none⟩] [⟨1, some 200, none⟩]
          (fun _ => none) 7
          (fun cid => true && all_details_valuated [⟨1, some 300, none⟩]
            [⟨1, some 200, none⟩] cid)
          [⟨1, STATUS_PROCESSED, none, none⟩] := by
  have h := (claim_C1_finalization [⟨1, some 300, none⟩] [⟨1, some 200, none⟩]
    (fun _ => none) 7 (fun _ => true) [⟨1, STATUS_PROCESSED, none, none⟩]
    ⟨1, STATUS_PROCESSED, none, none⟩ (by simp)).1 (by decide)
  simpa [claimItemsOf, claimServicesOf,
    show (300 : ℚ) + 200 + 0 = 500 by norm_num] using h

/-- A `Product` row as filtered by `get_product_queryset`. -/
structure ProductRec where
  id : Nat
  location_id : Option Int
  date_from : Date
  date_to : Option Date
  validity_to : Option Int
deriving DecidableEq, Repr

/-- A `PaymentPlan` row as filtered by `get_payment_plan_queryset`;
`calculation` is the opaque identifier resolved by the external
calculation registry. -/
structure PaymentPlanRec where
  id : Nat
  benefit_plan : Nat
  periodicity : Int
  calculation : Nat
  date_valid_from : Date
  date_valid_to : Date
  is_deleted : Bool
deriving DecidableEq, Repr

/-- Chronological comparison of dates (Python date `<=`). -/
def dateLe (a b : Date) : Bool := decide (toDays a ≤ toDays b)

/-- The read-only environment of a batch run: the product, payment plan
and premium tables, and the external calculation registry
(`get_calculation_object` returning a registered implementation or
`None`, modelled as a `Bool`). -/
structure Env where
  products : List ProductRec
  paymentPlans : List PaymentPlanRec
  premiums : List Premium
  registry : Nat → Bool

/-- `claim_batch.services.get_product_queryset`: active products whose
validity window covers `end_date`, scoped to the location (products with
null location when `location_id` is absent). -/
def get_product_queryset (env : Env) (end_date : Date) (location_id : Option Int) :
    List ProductRec :=
  let qs := env.products.filter (fun p => decide (p.validity_to = none)
    && dateLe p.date_from end_date
    && (match p.date_to with
        | some dt => dateLe end_date dt
        | none => true))
  match location_id with
  | some loc => qs.filter (fun p => decide (p.location_id = some loc))
  | none => qs.filter (fun p => decide (p.location_id = none))

/-- `claim_batch.services.get_payment_plan_queryset`: non-deleted payment
plans of the product valid at `end_date`. -/
def get_payment_plan_queryset (env : Env) (product : ProductRec) (end_date : Date) :
    List PaymentPlanRec :=
  env.paymentPlans.filter (fun pp => dateLe end_date pp.date_valid_to
    && dateLe pp.date_valid_from end_date
    && decide (pp.benefit_plan = product.id)
    && decide (pp.is_deleted = false))

/-- `claim_batch.services.get_contribution_queryset`: current premiums of
the product whose policy range overlaps the window. -/
def get_contribution_queryset (env : Env) (product : ProductRec) (s e : Date) :
    List Premium :=
  env.premiums.filter (fun pr => dateLe pr.policy.effective_date e
    && dateLe s pr.policy.expiry_date
    && decide (pr.validity_to = none)
    && decide (pr.policy.product = product.id))

/-- The per-run allocated-contribution cache, keyed by window start date
(the source keys by `str(start_date)`, which is injective on dates). -/
abbrev AllocCache := List (Date × ℚ)

/-- Lookup in the allocated-contribution cache
(`start_date_str not in allocated_contribution`). -/
def cacheLookup (cache : AllocCache) (s : Date) : Option ℚ :=
  match cache with
  | [] => none
  | (d, v) :: rest => if d = s then some v else cacheLookup rest s

/-- `claim_batch.services.update_work_data`, reduced to its observable
effect on the run: it (re)computes the window's data slices for the
external calculation and fills the allocated-contribution cache for the
window's start date, recomputing `get_allocated_premium` only on a cache
miss; a premium error propagates. The items/services/claims slices are
consumed only by the external calculation rules and are not modelled. -/
def update_work_data (env : Env) (product : ProductRec) (start_date end_date : Date)
    (allocated_contribution : AllocCache) : Except String (AllocCache × ℚ) :=
  match cacheLookup allocated_contribution start_date with
  | some v => .ok (allocated_contribution, v)
  | none =>
    match get_allocated_premium (get_contribution_queryset env product start_date end_date)
        start_date end_date with
    | .error e => .error e
    | .ok v => .ok ((start_date, v) :: allocated_contribution, v)

/-- The two calculation contexts dispatched by a batch run. -/
inductive CalcContext where
  | batchValuate
  | batchPayment
deriving DecidableEq, Repr

/-- One invocation of `calculation.calculate_if_active_for_object`:
which context was dispatched for which product and payment plan. -/
structure DispatchEvent where
  context : CalcContext
  product : Nat
  plan : Nat
deriving DecidableEq, Repr

/-- `claim_batch.services.trigger_calculation_based_on_context`: walks the
product's payment plans in order; for each plan it resolves the period
(`get_start_date`; a `None` start skips the plan), refreshes the work data
(which may raise), looks the plan's calculation up in the registry and,
only when an implementation is registered, dispatches the context for the
plan (recorded as a `DispatchEvent`). Returns the final cache and the
dispatch trace in order. -/
def trigger_calculation_based_on_context (env : Env) (context : CalcContext)
    (product : ProductRec) (plans : List PaymentPlanRec) (end_date : Date)
    (allocated_contribution : AllocCache) :
    Except String (AllocCache × List DispatchEvent) :=
  match plans with
  | [] => .ok (allocated_contribution, [])
  | payment_plan :: rest =>
    match get_start_date end_date payment_plan.periodicity with
    | .error e => .error e
    | .ok none =>
      trigger_calculation_based_on_context env context product rest end_date
        allocated_contribution
    | .ok (some start_date) =>
      match update_work_data env product start_date end_date allocated_contribution with
      | .error e => .error e
      | .ok (cache1, _alloc) =>
        match trigger_calculation_based_on_context env context product rest end_date cache1 with
        | .error e => .error e
        | .ok (cache2, evsRest) =>
          .ok (cache2,
            (if env.registry payment_plan.calculation then
              [⟨context, product.id, payment_plan.id⟩] else []) ++ evsRest)

/-- The per-product body of `do_process_batch`: a fresh
allocated-contribution cache, then the "BatchValuate" trigger over all the
product's plans, then — with the cache it produced — the "BatchPayment"
trigger over the same plans; the dispatch trace is the concatenation. -/
def product_batch_events (env : Env) (product : ProductRec) (end_date : Date) :
    Except String (List DispatchEvent) :=
  match trigger_calculation_based_on_context env .batchValuate product
      (get_payment_plan_queryset env product end_date) end_date [] with
  | .error e => .error e
  | .ok (cache1, ev1) =>
    match trigger_calculation_based_on_context env .batchPayment product
        (get_payment_plan_queryset env product end_date) end_date cache1 with
    | .error e => .error e
    | .ok (_, ev2) => .ok (ev1 ++ ev2)

/-- The product loop of `do_process_batch` (an empty product list is a
successful no-op). -/
def process_products (env : Env) (end_date : Date) :
    List ProductRec → Except String (List DispatchEvent)
  | [] => .ok []
  | product :: rest =>
    match product_batch_events env product end_date with
    | .error e => .error e
    | .ok evs =>
      match process_products env end_date rest with
      | .error e => .error e
      | .ok evsRest => .ok (evs ++ evsRest)

/-- A `BatchRun` row: a null `validity_to` marks the run as active. -/
structure BatchRunRec where
  id : Nat
  location_id : Option Int
  run_year : Int
  run_month : Int
  audit_user_id : Nat
  validity_to : Option Int
deriving DecidableEq, Repr

/-- The mutable database state a batch run touches: the `BatchRun` table
(with a fresh-id counter) and the trace of calculation dispatches
performed so far. -/
structure BatchState where
  runs : List BatchRunRec
  nextRunId : Nat
  events : List DispatchEvent
deriving Repr

/-- `claim_batch.services.do_process_batch`: creates the BatchRun row
first (open, `validity_to` null), then iterates the products scoped to
the location; returns the created run, or the first exception raised by
the product loop (in Python the exception propagates to `process_batch`;
the run row was already inserted when it does). -/
def do_process_batch (env : Env) (audit_user_id : Nat) (location_id : Option Int)
    (end_date : Date) (st : BatchState) : BatchState × Except String BatchRunRec :=
  let created_run : BatchRunRec :=
    ⟨st.nextRunId, location_id, end_date.year, end_date.month, audit_user_id, none⟩
  let st1 : BatchState := ⟨st.runs ++ [created_run], st.nextRunId + 1, st.events⟩
  match process_products env end_date (get_product_queryset env end_date location_id) with
  | .ok evs => (⟨st1.runs, st1.nextRunId, st1.events ++ evs⟩, .ok created_run)
  | .error e => (st1, .error e)

/-- `str(ProcessBatchSubmitError(code, msg))`: codes 1 and 2 are in
`ERROR_CODES`; any other code falls back to the passed message (or
"Unknown exception"). -/
def processBatchSubmitErrorStr (code : Int) (msg : Option String) : String :=
  let m := if code = 1 then "General fault"
    else if code = 2 then "Already run before"
    else msg.getD "Unknown exception"
  "ProcessBatchSubmitError " ++ toString code ++ ": " ++ m

/-- The idempotency filter of `process_batch` (and of
`ProcessBatchService.batch_run_already_executed`): an active run row for
the same year and month whose location, null-coalesced to -1, matches the
requested location. -/
def batchRunMatches (year month : Int) (location_id : Option Int)
    (r : BatchRunRec) : Bool :=
  decide (r.run_year = year) && decide (r.run_month = month)
    && decide (r.location_id.getD (-1) = location_id.getD (-1))
    && decide (r.validity_to = none)

/-- The `location_id == -1 → None` normalisation at the top of
`process_batch`. -/
def normalize_location (location_id : Option Int) : Option Int :=
  if location_id = some (-1) then none else location_id

/-- `claim_batch.services.process_batch`: normalises the -1 location
sentinel, aborts with the AlreadyRun error string when an active run for
the (year, month, location) key exists, and otherwise runs
`do_process_batch` for the last day of the month, catching any exception
as a code -1 error string that carries the cause. On success the Python
function falls through and returns `None` (the created run is discarded);
the month is assumed to be in 1..12, where `calendar.monthrange` is
defined. -/
def process_batch (env : Env) (audit_user_id : Nat) (location_id : Option Int)
    (period year : Int) (st : BatchState) : BatchState × Option (List String) :=
  let location_id := normalize_location location_id
  if st.runs.any (batchRunMatches year period location_id) then
    (st, some [processBatchSubmitErrorStr 2 none])
  else
    let end_date : Date := ⟨year, period, daysInMonth year period⟩
    match do_process_batch env audit_user_id location_id end_date st with
    | (st1, .ok _created) => (st1, none)
    | (st1, .error e) => (st1, some [processBatchSubmitErrorStr (-1) (some e)])

/-- The active runs a state holds for one (year, month, location) key. -/
def active_runs_for (st : BatchState) (year month : Int) (location_id : Option Int) :
    List BatchRunRec :=
  st.runs.filter (batchRunMatches year month location_id)

/-- The C2 invariant: at most one active BatchRun per
(year, month, location) key. -/
def at_most_one_active (st : BatchState) : Prop :=
  ∀ (y m : Int) (l : Option Int), (active_runs_for st y m l).length ≤ 1

lemma do_process_batch_fst_runs (env : Env) (audit : Nat) (loc : Option Int)
    (end_date : Date) (st : BatchState) :
    ((do_process_batch env audit loc end_date st).1).runs
      = st.runs ++ [⟨st.nextRunId, loc, end_date.year, end_date.month, audit, none⟩] := by
  unfold do_process_batch
  split <;> rfl

lemma process_batch_fst (env : Env) (audit : Nat) (loc : Option Int)
    (period year : Int) (st : BatchState) :
    (process_batch env audit loc period year st).1
      = if st.runs.any (batchRunMatches year period (normalize_location loc)) then st
        else (do_process_batch env audit (normalize_location loc)
          ⟨year, period, daysInMonth year period⟩ st).1 := by
  unfold process_batch
  by_cases h : st.runs.any (batchRunMatches year period (normalize_location loc))
  · rw [if_pos h, if_pos h]
  · rw [if_neg h, if_neg h]
    rcases hdp : do_process_batch env audit (normalize_location loc)
      ⟨year, period, daysInMonth year period⟩ st with ⟨st1, res⟩
    cases res <;> simp [hdp]

lemma batchRunMatches_key_eq (y m year period : Int) (l nloc : Option Int)
    (hy : y = year) (hm : m = period) (hl : l.getD (-1) = nloc.getD (-1))
    (r : BatchRunRec) :
    batchRunMatches y m l r = batchRunMatches year period nloc r := by
  unfold batchRunMatches
  rw [hy, hm, hl]

lemma inv_preserved_by_create (st : BatchState) (year period : Int)
    (nloc : Option Int) (id audit : Nat) (runs1 : List BatchRunRec)
    (h : st.runs.any (batchRunMatches year period nloc) = false)
    (hinv : at_most_one_active st)
    (hruns : runs1 = st.runs ++ [⟨id, nloc, year, period, audit, none⟩]) :
    ∀ (n : Nat) (evs : List DispatchEvent),
      at_most_one_active ⟨runs1, n, evs⟩ := by
  intro n evs y m l
  unfold active_runs_for
  show (List.filter (batchRunMatches y m l) runs1).length ≤ 1
  rw [hruns, List.filter_append]
  by_cases hb : batchRunMatches y m l ⟨id, nloc, year, period, audit, none⟩
  · have hkey : y = year ∧ m = period ∧ l.getD (-1) = nloc.getD (-1) := by
      unfold batchRunMatches at hb
      simp only [Bool.and_eq_true, decide_eq_true_eq] at hb
      exact ⟨hb.1.1.1.symm, hb.1.1.2.symm, hb.1.2.symm⟩
    have hnil : List.filter (batchRunMatches y m l) st.runs = [] := by
      rw [List.filter_eq_nil_iff]
      intro r hr
      rw [batchRunMatches_key_eq y m year period l nloc hkey.1 hkey.2.1 hkey.2.2 r]
      have := List.any_eq_false.mp h r hr
      simpa using this
    rw [hnil, List.filter_singleton]
    simp [hb]
  · have hone : List.filter (batchRunMatches y m l)
        [(⟨id, nloc, year, period, audit, none⟩ : BatchRunRec)] = [] := by
      rw [List.filter_singleton]
      simp [hb]
    rw [hone, List.append_nil]
    exact hinv y m l

lemma process_batch_preserves_inv (env : Env) (audit : Nat) (loc : Option Int)
    (period year : Int) (st : BatchState) (hinv : at_most_one_active st) :
    at_most_one_active (process_batch env audit loc period year st).1 := by
  rw [process_batch_fst]
  by_cases h : st.runs.any (batchRunMatches year period (normalize_location loc))
  · rw [if_pos h]
    exact hinv
  · rw [if_neg h]
    rcases hst : (do_process_batch env audit (normalize_location loc)
      ⟨year, period, daysInMonth year period⟩ st).1 with ⟨runs1, n1, evs1⟩
    have hruns : runs1 = st.runs
        ++ [⟨st.nextRunId, normalize_location loc, year, period, audit, none⟩] := by
      have := do_process_batch_fst_runs env audit (normalize_location loc)
        ⟨year, period, daysInMonth year period⟩ st
      rw [hst] at this
      exact this
    exact inv_preserved_by_create st year period (normalize_location loc)
      st.nextRunId audit runs1 (by simpa using h) hinv hruns n1 evs1

/-- C2: (i) the at-most-one-active-BatchRun-per-(year, month, location)
invariant is preserved by any `process_batch` call; (ii) when an active
BatchRun for the requested key already exists, `process_batch` returns
exactly the AlreadyRun error list (error code 2) and leaves the state
untouched (no BatchRun created, no dispatch performed); (iii) hence two
consecutive calls for the same key never leave two active BatchRuns for
any key. -/
theorem claim_C2_run_idempotency (env : Env) (audit : Nat) (loc : Option Int)
    (period year : Int) (st : BatchState) (hinv : at_most_one_active st) :
    at_most_one_active (process_batch env audit loc period year st).1
    ∧ (active_runs_for st year period (normalize_location loc) ≠ [] →
        process_batch env audit loc period year st
          = (st, some [processBatchSubmitErrorStr 2 none]))
    ∧ at_most_one_active (process_batch env audit loc period year
        (process_batch env audit loc period year st).1).1 := by
  refine ⟨process_batch_preserves_inv env audit loc period year st hinv, ?_, ?_⟩
  · intro hne
    have hany : st.runs.any (batchRunMatches year period (normalize_location loc)) = true := by
      rcases List.exists_mem_of_ne_nil _ hne with ⟨r, hr⟩
      unfold active_runs_for at hr
      rw [List.any_eq_true]
      exact ⟨r, List.mem_of_mem_filter hr, List.of_mem_filter hr⟩
    unfold process_batch
    rw [if_pos hany]
  · exact process_batch_preserves_inv env audit loc period year _
      (process_batch_preserves_inv env audit loc period year st hinv)

/-- The trivial environment: no products, plans or premiums, and an empty
calculation registry. -/
def envTrivial : Env := ⟨[], [], [], fun _ => false⟩

/-- Witness for C2: on a state holding one active run for
(2020, 1, no location), a second call for the same key returns the
AlreadyRun error string and changes nothing. -/
theorem claim_C2_run_idempotency_witness :
    process_batch envTrivial 1 none 1 2020 ⟨[⟨0, none, 2020, 1, 1, none⟩], 1, []⟩
      = (⟨[⟨0, none, 2020, 1, 1, none⟩], 1, []⟩,
         some [processBatchSubmitErrorStr 2 none]) :=
  (claim_C2_run_idempotency envTrivial 1 none 1 2020
      ⟨[⟨0, none, 2020, 1, 1, none⟩], 1, []⟩
      (fun y m l => List.length_filter_le _ _)).2.1
    (by decide)

/-- C10: `process_batch` treats the -1 location sentinel exactly as a null
location: the two calls are literally the same function application after
the normalisation at the top of the function, so they return the same
value and produce the same state for every environment, period, year and
starting state. -/
theorem claim_C10_location_sentinel (env : Env) (audit : Nat)
    (period year : Int) (st : BatchState) :
    process_batch env audit (some (-1)) period year st
      = process_batch env audit none period year st := rfl

/-- C9 counterexample: a successful run (empty product table, so the
product loop is a successful no-op) creates and persists a BatchRun but
`process_batch` returns `None` (the Python function discards
`do_process_batch`'s return value and falls through) — not the created
BatchRun as the claim states. -/
theorem claim_C9_counterexample :
    process_batch envTrivial 1 none 1 2020 ⟨[], 0, []⟩
      = (⟨[⟨0, none, 2020, 1, 1, none⟩], 1, []⟩, none) := rfl

/-- C9 (amended): `process_batch` returns the AlreadyRun error list when
an active run for the key exists; returns `None` — not the created
BatchRun, which is persisted but discarded — when `do_process_batch`
succeeds; and returns a ProcessingError list (code -1, carrying the
original cause) when `do_process_batch` raises. -/
theorem claim_C9_return_contract (env : Env) (audit : Nat) (loc : Option Int)
    (period year : Int) (st : BatchState) :
    (st.runs.any (batchRunMatches year period (normalize_location loc)) = true →
      process_batch env audit loc period year st
        = (st, some [processBatchSubmitErrorStr 2 none]))
    ∧ (∀ (st1 : BatchState) (run : BatchRunRec),
        st.runs.any (batchRunMatches year period (normalize_location loc)) = false →
        do_process_batch env audit (normalize_location loc)
            ⟨year, period, daysInMonth year period⟩ st = (st1, .ok run) →
        process_batch env audit loc period year st = (st1, none))
    ∧ (∀ (st1 : BatchState) (e : String),
        st.runs.any (batchRunMatches year period (normalize_location loc)) = false →
        do_process_batch env audit (normalize_location loc)
            ⟨year, period, daysInMonth year period⟩ st = (st1, .error e) →
        process_batch env audit loc period year st
          = (st1, some [processBatchSubmitErrorStr (-1) (some e)])) := by
  refine ⟨?_, ?_, ?_⟩
  · intro hany
    unfold process_batch
    rw [if_pos hany]
  · intro st1 run hany hdp
    unfold process_batch
    rw [if_neg (by simp [hany])]
    simp [hdp]
  · intro st1 e hany hdp
    unfold process_batch
    rw [if_neg (by simp [hany])]
    simp [hdp]

/-- Witness for C9 (amended): a successful run for (2020, 1, location 5)
returns `None` with the created run persisted in the state. -/
theorem claim_C9_return_contract_witness :
    process_batch envTrivial 1 (some 5) 1 2020 ⟨[], 0, []⟩
      = (⟨[⟨0, some 5, 2020, 1, 1, none⟩], 1, []⟩, none) :=
  (claim_C9_return_contract envTrivial 1 (some 5) 1 2020 ⟨[], 0, []⟩).2.1
    ⟨[⟨0, some 5, 2020, 1, 1, none⟩], 1, []⟩ ⟨0, some 5, 2020, 1, 1, none⟩ rfl rfl

lemma trigger_events_spec (env : Env) (context : CalcContext) (product : ProductRec)
    (end_date : Date) :
    ∀ (plans : List PaymentPlanRec) (cache cacheF : AllocCache)
      (evs : List DispatchEvent),
      trigger_calculation_based_on_context env context product plans end_date cache
        = .ok (cacheF, evs) →
      (∀ e ∈ evs, e.context = context ∧ e.product = product.id)
      ∧ (∀ pp ∈ plans,
          (∃ s, get_start_date end_date pp.periodicity = .ok (some s)) →
          env.registry pp.calculation = true →
          (⟨context, product.id, pp.id⟩ : DispatchEvent) ∈ evs) := by
  intro plans
  induction plans with
  | nil =>
    intro cache cacheF evs h
    unfold trigger_calculation_based_on_context at h
    cases h
    exact ⟨by simp, by simp⟩
  | cons pp rest ih =>
    intro cache cacheF evs h
    unfold trigger_calculation_based_on_context at h
    split at h
    · cases h
    · rename_i hs
      have spec := ih cache cacheF evs h
      refine ⟨spec.1, ?_⟩
      intro q hq hres hreg
      rcases List.mem_cons.mp hq with hq1 | hq2
      · rcases hres with ⟨s, hres⟩
        rw [hq1, hs] at hres
        cases hres
      · exact spec.2 q hq2 hres hreg
    · rename_i start_date hs
      split at h
      · cases h
      · rename_i cache1 _alloc hu
        split at h
        · cases h
        · rename_i cache2 evsRest ht
          have hevs : evs = (if env.registry pp.calculation then
              [(⟨context, product.id, pp.id⟩ : DispatchEvent)] else []) ++ evsRest := by
            cases h
            rfl
          rw [hevs]
          have spec := ih cache1 cache2 evsRest ht
          constructor
          · intro e he
            rcases List.mem_append.mp he with h1 | h2
            · by_cases hreg : env.registry pp.calculation
              · rw [if_pos hreg] at h1
                rw [List.mem_singleton.mp h1]
                exact ⟨rfl, rfl⟩
              · rw [if_neg hreg] at h1
                cases h1
            · exact spec.1 e h2
          · intro q hq hres hreg
            rcases List.mem_cons.mp hq with hq1 | hq2
            · refine List.mem_append.mpr (Or.inl ?_)
              rw [hq1] at hreg
              rw [if_pos hreg, hq1]
              exact List.mem_singleton.mpr rfl
            · exact List.mem_append.mpr (Or.inr (spec.2 q hq2 hres hreg))

/-- C5 (amended): for each product the run performs the full
"BatchValuate" pass over all the product's payment plans and only then the
"BatchPayment" pass over the same plans: the dispatch trace splits as a
valuation prefix followed by a payment suffix, and every plan whose period
resolves and whose calculation is registered is dispatched in both —
so its valuation always precedes its payment — but the payment for a plan
is not dispatched before processing moves to the next plan, as the
valuation of all later plans comes first. -/
theorem claim_C5_context_ordering (env : Env) (product : ProductRec)
    (end_date : Date) (tr : List DispatchEvent)
    (h : product_batch_events env product end_date = .ok tr) :
    ∃ tv tp, tr = tv ++ tp
      ∧ (∀ e ∈ tv, e.context = CalcContext.batchValuate ∧ e.product = product.id)
      ∧ (∀ e ∈ tp, e.context = CalcContext.batchPayment ∧ e.product = product.id)
      ∧ (∀ pp ∈ get_payment_plan_queryset env product end_date,
          (∃ s, get_start_date end_date pp.periodicity = .ok (some s)) →
          env.registry pp.calculation = true →
          (⟨CalcContext.batchValuate, product.id, pp.id⟩ : DispatchEvent) ∈ tv
            ∧ (⟨CalcContext.batchPayment, product.id, pp.id⟩ : DispatchEvent) ∈ tp) := by
  unfold product_batch_events at h
  split at h
  · cases h
  · rename_i cache1 ev1 h1
    split at h
    · cases h
    · rename_i cache2 ev2 h2
      cases h
      have spec1 := trigger_events_spec env .batchValuate product end_date
        (get_payment_plan_queryset env product end_date) [] cache1 ev1 h1
      have spec2 := trigger_events_spec env .batchPayment product end_date
        (get_payment_plan_queryset env product end_date) cache1 cache2 ev2 h2
      refine ⟨ev1, ev2, rfl, spec1.1, spec2.1, ?_⟩
      intro pp hpp hres hreg
      exact ⟨spec1.2 pp hpp hres hreg, spec2.2 pp hpp hres hreg⟩

/-- The product used by the C5 scenario. -/
def prod5 : ProductRec := ⟨1, none, ⟨2019, 1, 1⟩, none, none⟩

/-- The C5 scenario environment: one product with two monthly payment
plans (ids 1 and 2), no premiums, and a registry where every calculation
is registered. -/
def env5 : Env :=
  ⟨[prod5],
   [⟨1, 1, 1, 0, ⟨2019, 1, 1⟩, ⟨2050, 1, 1⟩, false⟩,
    ⟨2, 1, 1, 0, ⟨2019, 1, 1⟩, ⟨2050, 1, 1⟩, false⟩],
   [], fun _ => true⟩

/-- The claim's ordering: the plan ids of the dispatch trace never return
to an earlier plan once a later plan has been started ("both contexts are
dispatched before processing moves to the next plan"). -/
def plans_nondecreasing : List Nat → Bool
  | [] => true
  | [_] => true
  | a :: b :: rest => decide (a ≤ b) && plans_nondecreasing (b :: rest)

/-- C5 counterexample: with two monthly plans for one product, the
dispatch trace is Valuate(plan 1), Valuate(plan 2), Payment(plan 1),
Payment(plan 2): the plan-id sequence 1, 2, 1, 2 goes back to plan 1
after plan 2 has started, so BatchPayment for plan 1 is NOT dispatched
before processing moves to plan 2, contradicting the claimed ordering. -/
theorem claim_C5_counterexample :
    product_batch_events env5 prod5 ⟨2020, 1, 31⟩
      = .ok [⟨.batchValuate, 1, 1⟩, ⟨.batchValuate, 1, 2⟩,
             ⟨.batchPayment, 1, 1⟩, ⟨.batchPayment, 1, 2⟩]
    ∧ plans_nondecreasing
        (([⟨.batchValuate, 1, 1⟩, ⟨.batchValuate, 1, 2⟩,
           ⟨.batchPayment, 1, 1⟩, ⟨.batchPayment, 1, 2⟩] :
          List DispatchEvent).map DispatchEvent.plan) = false :=
  ⟨rfl, rfl⟩

/-- Witness for C5 (amended) on the concrete two-plan scenario. -/
theorem claim_C5_context_ordering_witness :
    ∃ tv tp, ([⟨.batchValuate, 1, 1⟩, ⟨.batchValuate, 1, 2⟩,
               ⟨.batchPayment, 1, 1⟩, ⟨.batchPayment, 1, 2⟩] :
              List DispatchEvent) = tv ++ tp
      ∧ (∀ e ∈ tv, e.context = CalcContext.batchValuate ∧ e.product = prod5.id)
      ∧ (∀ e ∈ tp, e.context = CalcContext.batchPayment ∧ e.product = prod5.id)
      ∧ (∀ pp ∈ get_payment_plan_queryset env5 prod5 ⟨2020, 1, 31⟩,
          (∃ s, get_start_date ⟨2020, 1, 31⟩ pp.periodicity = .ok (some s)) →
          env5.registry pp.calculation = true →
          (⟨CalcContext.batchValuate, prod5.id, pp.id⟩ : DispatchEvent) ∈ tv
            ∧ (⟨CalcContext.batchPayment, prod5.id, pp.id⟩ : DispatchEvent) ∈ tp) :=
  claim_C5_context_ordering env5 prod5 ⟨2020, 1, 31⟩ _ rfl

/-- C7: a payment plan whose calculation identifier is not registered
(`get_calculation_object` returns `None`) is silently skipped: after its
period resolves and its work data is refreshed (possibly filling the
cache), processing is exactly the processing of the remaining plans — no
dispatch event for the plan and no error from it; a plan whose period does
not resolve is likewise skipped without consulting the registry. -/
theorem claim_C7_unregistered_noop (env : Env) (context : CalcContext)
    (product : ProductRec) (payment_plan : PaymentPlanRec)
    (rest : List PaymentPlanRec) (end_date : Date) (cache : AllocCache)
    (hunreg : env.registry payment_plan.calculation = false) :
    (∀ (s : Date) (cache1 : AllocCache) (v : ℚ),
      get_start_date end_date payment_plan.periodicity = .ok (some s) →
      update_work_data env product s end_date cache = .ok (cache1, v) →
      trigger_calculation_based_on_context env context product
          (payment_plan :: rest) end_date cache
        = trigger_calculation_based_on_context env context product rest end_date cache1)
    ∧ (get_start_date end_date payment_plan.periodicity = .ok none →
      trigger_calculation_based_on_context env context product
          (payment_plan :: rest) end_date cache
        = trigger_calculation_based_on_context env context product rest end_date cache) := by
  constructor
  · intro s cache1 v hs hu
    conv_lhs => rw [trigger_calculation_based_on_context]
    rw [hs]
    dsimp only
    rw [hu]
    dsimp only
    simp only [hunreg, Bool.false_eq_true, if_false, List.nil_append]
    rcases h2 : trigger_calculation_based_on_context env context product rest
      end_date cache1 with e | ⟨cache2, evs⟩ <;> rfl
  · intro hs
    conv_lhs => rw [trigger_calculation_based_on_context]
    rw [hs]

/-- The payment plan used by the C7 witness: monthly periodicity,
calculation id 0 (unregistered in `envTrivial`). -/
def pp7 : PaymentPlanRec := ⟨1, 1, 1, 0, ⟨2019, 1, 1⟩, ⟨2050, 1, 1⟩, false⟩

/-- Witness for C7: in the empty-registry environment a single
unregistered monthly plan is skipped and processing continues (here: ends)
with the remaining (empty) plan list and the filled cache. -/
theorem claim_C7_unregistered_noop_witness :
    trigger_calculation_based_on_context envTrivial CalcContext.batchValuate prod5
        [pp7] ⟨2020, 1, 31⟩ []
      = trigger_calculation_based_on_context envTrivial CalcContext.batchValuate prod5
          [] ⟨2020, 1, 31⟩ [(⟨2020, 1, 1⟩, 0)] :=
  (claim_C7_unregistered_noop envTrivial CalcContext.batchValuate prod5 pp7 []
      ⟨2020, 1, 31⟩ [] rfl).1
    ⟨2020, 1, 1⟩ [(⟨2020, 1, 1⟩, 0)] 0 rfl rfl

/-- One row of the processed-batch report as produced by the external
reporting query (`process_batch_report_data[_with_claims]`); the claim-mode
price-breakdown fields are only consulted when `showClaims` is set. -/
structure ReportRow where
  RegionName : String
  DistrictName : String
  HFCode : String
  ProductCode : String
  PriceAsked : ℚ
  PriceApproved : ℚ
  PriceAdjusted : ℚ
  RemuneratedAmount : ℚ
deriving DecidableEq, Repr

/-- The monetary sums one grouping level carries: with `show_claims` the
three price-breakdown sums are present alongside the remunerated sum
(`df.groupby(...)[4 fields].sum()`); without it only the remunerated sum
(`df.groupby(...)[single field].sum()`). -/
structure MoneySums where
  PriceAsked : Option ℚ
  PriceApproved : Option ℚ
  PriceAdjusted : Option ℚ
  RemuneratedAmount : ℚ
deriving DecidableEq, Repr

/-- The pandas group sum over a set of rows. -/
def money_sums (rows : List ReportRow) (show_claims : Bool) : MoneySums :=
  ⟨if show_claims then some ((rows.map (·.PriceAsked)).sum) else none,
   if show_claims then some ((rows.map (·.PriceApproved)).sum) else none,
   if show_claims then some ((rows.map (·.PriceAdjusted)).sum) else none,
   (rows.map (·.RemuneratedAmount)).sum⟩

/-- `claim_batch.services.regions_sum`: group sums keyed by region name. -/
def regions_sum (rows : List ReportRow) (show_claims : Bool) (region : String) :
    MoneySums :=
  money_sums (rows.filter (fun r => decide (r.RegionName = region))) show_claims

/-- `claim_batch.services.districts_sum`: group sums keyed by
(region, district). -/
def districts_sum (rows : List ReportRow) (show_claims : Bool)
    (region district : String) : MoneySums :=
  money_sums (rows.filter (fun r =>
    decide (r.RegionName = region) && decide (r.DistrictName = district))) show_claims

/-- `claim_batch.services.health_facilities_sum`: group sums keyed by
(region, district, health facility code). -/
def health_facilities_sum (rows : List ReportRow) (show_claims : Bool)
    (region district hfcode : String) : MoneySums :=
  money_sums (rows.filter (fun r =>
    decide (r.RegionName = region) && decide (r.DistrictName = district)
      && decide (r.HFCode = hfcode))) show_claims

/-- `claim_batch.services.products_sum`: group sums keyed by
(region, district, product code). -/
def products_sum (rows : List ReportRow) (show_claims : Bool)
    (region district productCode : String) : MoneySums :=
  money_sums (rows.filter (fun r =>
    decide (r.RegionName = region) && decide (r.DistrictName = district)
      && decide (r.ProductCode = productCode))) show_claims

/-- A report row enriched with the region-level (SUMR), district-level
(SUMD) and third-level (SUMHF or SUMP) sums injected by the aggregation. -/
structure EnrichedRow where
  row : ReportRow
  SUMR : MoneySums
  SUMD : MoneySums
  SUM3 : MoneySums
deriving DecidableEq, Repr

/-- Python tuple `<=` on the three-part sort key (lexicographic on
strings); used as the stable-sort order of `sorted(data, key=...)`. -/
def keyLe (a b : String × String × String) : Bool :=
  decide (a.1 < b.1) || (decide (a.1 = b.1)
    && (decide (a.2.1 < b.2.1) || (decide (a.2.1 = b.2.1)
      && decide (a.2.2 < b.2.2 ∨ a.2.2 = b.2.2))))

/-- `claim_batch.services.add_sums_by_hf`: enrich every row with its
region, district and health-facility sums, then sort by
(RegionName, DistrictName, HFCode). -/
def add_sums_by_hf (rows : List ReportRow) (show_claims : Bool) : List EnrichedRow :=
  (rows.map (fun r =>
    (⟨r, regions_sum rows show_claims r.RegionName,
      districts_sum rows show_claims r.RegionName r.DistrictName,
      health_facilities_sum rows show_claims r.RegionName r.DistrictName r.HFCode⟩ :
      EnrichedRow))).mergeSort
    (fun a b => keyLe (a.row.RegionName, a.row.DistrictName, a.row.HFCode)
      (b.row.RegionName, b.row.DistrictName, b.row.HFCode))

/-- `claim_batch.services.add_sums_by_prod`: enrich every row with its
region, district and product sums, then sort by
(RegionName, DistrictName, ProductCode). -/
def add_sums_by_prod (rows : List ReportRow) (show_claims : Bool) : List EnrichedRow :=
  (rows.map (fun r =>
    (⟨r, regions_sum rows show_claims r.RegionName,
      districts_sum rows show_claims r.RegionName r.DistrictName,
      products_sum rows show_claims r.RegionName r.DistrictName r.ProductCode⟩ :
      EnrichedRow))).mergeSort
    (fun a b => keyLe (a.row.RegionName, a.row.DistrictName, a.row.ProductCode)
      (b.row.RegionName, b.row.DistrictName, b.row.ProductCode))

/-- `claim_batch.services.ReportDataService.fetch`: the rows come from the
external reporting query (passed here as `data`); an empty row list raises
`ValueError("claim_batch.reports.nodata")`, otherwise the rows are
enriched by facility (`group = "H"`) or by product grouping. -/
def ReportDataService_fetch (show_claims : Bool) (group : String)
    (data : List ReportRow) : Except String (List EnrichedRow) :=
  if data.isEmpty then .error "claim_batch.reports.nodata"
  else if group = "H" then .ok (add_sums_by_hf data show_claims)
  else .ok (add_sums_by_prod data show_claims)

/-- C8: for every parameter set, `ReportDataService.fetch` raises the
NoDataError on an empty row list, and on any non-empty row list it does
not raise and returns the enriched rows (facility or product grouping per
the `group` parameter). -/
theorem claim_C8_nodata (show_claims : Bool) (group : String)
    (rows : List ReportRow) :
    ReportDataService_fetch show_claims group [] = .error "claim_batch.reports.nodata"
    ∧ (rows ≠ [] →
        ReportDataService_fetch show_claims group rows
          = .ok (if group = "H" then add_sums_by_hf rows show_claims
                 else add_sums_by_prod rows show_claims)) := by
  constructor
  · rfl
  · intro hne
    unfold ReportDataService_fetch
    rw [if_neg (by simpa [List.isEmpty_iff] using hne)]
    by_cases hg : group = "H"
    · rw [if_pos hg, if_pos hg]
    · rw [if_neg hg, if_neg hg]

/-- Witness for C8: a single-row input does not raise and returns the
facility-grouped enrichment. -/
theorem claim_C8_nodata_witness :
    ReportDataService_fetch true "H" [⟨"R1", "D1", "HF1", "P1", 1, 2, 3, 4⟩]
      = .ok (add_sums_by_hf [⟨"R1", "D1", "HF1", "P1", 1, 2, 3, 4⟩] true) := by
  have h := (claim_C8_nodata true "H" [⟨"R1", "D1", "HF1", "P1", 1, 2, 3, 4⟩]).2
    (by simp)
  simpa using h
